import Mathlib

/-!
Shallow embedding of `azurerm/internal/services/compute/virtual_machine_scale_set.go`
from the terraform-provider-azurerm repository, together with proofs about the
expand/flatten mappers, the upgrade-policy validation and the resource-id parser
defined there.

Modelling conventions:
* Go SDK structs (`compute.*`) become Lean structures; pointer-typed fields
  (`*bool`, `*int32`, `*string`, nested struct pointers) become `Option` fields,
  with `some` playing the role of a non-nil pointer (`utils.Bool`/`utils.Int32`/
  `utils.String` box a value into a pointer, i.e. `some`).
* SDK enum string constants (`compute.Automatic`, `compute.CachingTypesNone`, ...)
  become `String` definitions with their wire values.
* A schema-validated configuration block (`map[string]interface{}` read through
  type assertions with a fixed set of keys) becomes a Lean structure whose field
  names are the map keys asserted by the source.
* `input[0]` on a Go slice panics when the slice is empty; expand functions that
  index unconditionally therefore return `Option`, with `none` for the
  out-of-bounds panic and `some` for every normal outcome (including returned
  validation errors, which are `Except.error` inside the `some`).
* `int32(n)` is the wrap-around conversion `toInt32`; widening `int(n32)` is the
  identity on the already-wrapped value.
* The flatten function for the OS disk builds a `map[string]interface{}` whose
  key set is part of what is being verified, so its output is an explicit
  association list over a small value universe `FVal`; the other flatten
  functions build maps with exactly the schema keys, so their outputs reuse the
  configuration structures.
-/

set_option autoImplicit false

namespace VMSS

/-! ### SDK enum constants (wire values used by the source) -/

def Automatic : String := "Automatic"

def Manual : String := "Manual"

def Rolling : String := "Rolling"

def CachingTypesNone : String := "None"

def CachingTypesReadOnly : String := "ReadOnly"

def CachingTypesReadWrite : String := "ReadWrite"

def StorageAccountTypesPremiumLRS : String := "Premium_LRS"

def StorageAccountTypesStandardLRS : String := "Standard_LRS"

def StorageAccountTypesStandardSSDLRS : String := "StandardSSD_LRS"

def LocalDiffDisk : String := "Local"

def DiskCreateOptionTypesFromImage : String := "FromImage"

def LinuxOS : String := "Linux"

def WindowsOS : String := "Windows"

/-- Wrap-around conversion of an unbounded integer into `int32`, the meaning of
the Go `int32(n)` conversion. -/
def toInt32 (n : Int) : Int := (n + 2 ^ 31) % 2 ^ 32 - 2 ^ 31

/-- `validation.IntBetween(lo, hi)` from the terraform schema-validation helpers,
as used by the `disk_size_gb` schema entry: accepts exactly `lo ≤ n ≤ hi`. -/
def IntBetween (lo hi n : Int) : Bool := lo ≤ n ∧ n ≤ hi

/-! ### Provider (SDK) object types -/

/-- `compute.AdditionalCapabilities`. -/
structure AdditionalCapabilities where
  UltraSSDEnabled : Option Bool := none
deriving DecidableEq

/-- `compute.VirtualMachineScaleSetManagedDiskParameters`. -/
structure VirtualMachineScaleSetManagedDiskParameters where
  StorageAccountType : String
deriving DecidableEq

/-- `compute.DiffDiskSettings`. -/
structure DiffDiskSettings where
  Option : String
deriving DecidableEq

/-- `compute.VirtualMachineScaleSetOSDisk`. -/
structure VirtualMachineScaleSetOSDisk where
  Caching : String
  ManagedDisk : Option VirtualMachineScaleSetManagedDiskParameters := none
  WriteAcceleratorEnabled : Option Bool := none
  CreateOption : String
  OsType : String
  DiskSizeGB : Option Int := none
  DiffDiskSettings : Option DiffDiskSettings := none
deriving DecidableEq

/-- `compute.ImageReference`. -/
structure ImageReference where
  ID : Option String := none
  Publisher : Option String := none
  Offer : Option String := none
  Sku : Option String := none
  Version : Option String := none
deriving DecidableEq

/-- `compute.AutomaticOSUpgradePolicy`. -/
structure AutomaticOSUpgradePolicy where
  DisableAutomaticRollback : Option Bool := none
  EnableAutomaticOSUpgrade : Option Bool := none
deriving DecidableEq

/-- `compute.RollingUpgradePolicy`. -/
structure RollingUpgradePolicy where
  MaxBatchInstancePercent : Option Int := none
  MaxUnhealthyInstancePercent : Option Int := none
  MaxUnhealthyUpgradedInstancePercent : Option Int := none
  PauseTimeBetweenBatches : Option String := none
deriving DecidableEq

/-- `compute.UpgradePolicy`. -/
structure UpgradePolicy where
  Mode : String
  AutomaticOSUpgradePolicy : Option AutomaticOSUpgradePolicy := none
  RollingUpgradePolicy : Option RollingUpgradePolicy := none
deriving DecidableEq

/-! ### Configuration-node types (schema-validated blocks read by the source) -/

/-- One element of the `additional_capabilities` list. -/
structure AdditionalCapabilitiesNode where
  ultra_ssd_enabled : Bool
deriving DecidableEq

/-- One element of the nested `diff_disk_settings` list. -/
structure DiffDiskSettingsNode where
  option : String
deriving DecidableEq

/-- One element of the `os_disk` list. -/
structure OSDiskNode where
  caching : String
  storage_account_type : String
  diff_disk_settings : List DiffDiskSettingsNode
  disk_size_gb : Int
  write_accelerator_enabled : Bool
deriving DecidableEq

/-- One element of the `source_image_reference` list. -/
structure SourceImageReferenceNode where
  publisher : String
  offer : String
  sku : String
  version : String
deriving DecidableEq

/-- One element of the nested `automatic_os_upgrade_policy` list. -/
structure AutomaticOSUpgradePolicyNode where
  disable_automatic_rollback : Bool
  enable_automatic_os_upgrade : Bool
deriving DecidableEq

/-- One element of the nested `rolling_upgrade_policy` list. -/
structure RollingUpgradePolicyNode where
  max_batch_instance_percent : Int
  max_unhealthy_instance_percent : Int
  max_unhealthy_upgraded_instance_percent : Int
  pause_time_between_batches : String
deriving DecidableEq

/-- One element of the `upgrade_policy` list. -/
structure UpgradePolicyNode where
  mode : String
  automatic_os_upgrade_policy : List AutomaticOSUpgradePolicyNode
  rolling_upgrade_policy : List RollingUpgradePolicyNode
deriving DecidableEq

/-- Value universe for an output `map[string]interface{}` entry built by the
OS-disk flatten function: a string, an int, a bool, or a nested list of maps. -/
inductive FVal where
  | s (v : String)
  | i (v : Int)
  | b (v : Bool)
  | l (v : List (List (String × FVal)))

/-! ### Resource-identifier parsing -/

/-- Modelled from the spec: the resource-identifier type produced by the shared
path-parsing helper `azure.ParseAzureResourceID` (which lives outside the
excerpted source). Per the spec it is "a structured decomposition of a
hierarchical path string", carrying (at least) a map from path-segment labels
to their values; for the Go map read `id.Path[label]`, a missing label yields
the zero value `""`. -/
structure AzureResourceID where
  Path : List (String × String)
deriving DecidableEq

/-- The Go map read `Path[label]`: the stored value, or `""` when absent. -/
def AzureResourceID.pathGet (id : AzureResourceID) (label : String) : String :=
  (id.Path.lookup label).getD ""

/-- `VirtualMachineScaleSetResourceID` from the source. -/
structure VirtualMachineScaleSetResourceID where
  Base : AzureResourceID
  Name : String
deriving DecidableEq

/-- `ParseVirtualMachineScaleSetResourceID`, parameterised by the external
path-parsing helper it delegates to (`azure.ParseAzureResourceID`). -/
def ParseVirtualMachineScaleSetResourceID
    (parseAzureResourceID : String → Except String AzureResourceID)
    (input : String) : Except String VirtualMachineScaleSetResourceID :=
  match parseAzureResourceID input with
  | Except.error err =>
    Except.error ("[ERROR] Unable to parse Virtual Machine Scale Set ID \"" ++ input ++ "\": " ++ err)
  | Except.ok id =>
    let networkSecurityGroup : VirtualMachineScaleSetResourceID :=
      { Base := id, Name := id.pathGet "virtualMachineScaleSets" }
    if networkSecurityGroup.Name = "" then
      Except.error "ID was missing the `virtualMachineScaleSets` element"
    else
      Except.ok networkSecurityGroup

/-! ### Additional capabilities -/

/-- `ExpandVirtualMachineScaleSetAdditionalCapabilities`; the Go function
returns `&capabilities`, a pointer that is never nil, hence always `some`. -/
def ExpandVirtualMachineScaleSetAdditionalCapabilities
    (input : List AdditionalCapabilitiesNode) : Option AdditionalCapabilities :=
  let capabilities : AdditionalCapabilities := {}
  match input with
  | raw :: _ => some { capabilities with UltraSSDEnabled := some raw.ultra_ssd_enabled }
  | [] => some capabilities

/-- `FlattenVirtualMachineScaleSetAdditionalCapabilities`. -/
def FlattenVirtualMachineScaleSetAdditionalCapabilities
    (input : Option AdditionalCapabilities) : List AdditionalCapabilitiesNode :=
  match input with
  | none => []
  | some input =>
    let ultraSsdEnabled : Bool :=
      match input.UltraSSDEnabled with
      | some v => v
      | none => false
    [{ ultra_ssd_enabled := ultraSsdEnabled }]

/-! ### OS disk -/

/-- The key set declared by `VirtualMachineScaleSetOSDiskSchema` for the
`os_disk` block. -/
def VirtualMachineScaleSetOSDiskSchemaKeys : List String :=
  ["caching", "storage_account_type", "diff_disk_settings", "disk_size_gb",
   "write_accelerator_enabled"]

/-- `ExpandVirtualMachineScaleSetOSDisk`; `input[0]` panics on an empty slice,
modelled by `none`. -/
def ExpandVirtualMachineScaleSetOSDisk (input : List OSDiskNode) (osType : String) :
    Option VirtualMachineScaleSetOSDisk :=
  match input with
  | [] => none
  | raw :: _ =>
    let disk : VirtualMachineScaleSetOSDisk :=
      { Caching := raw.caching
        ManagedDisk := some { StorageAccountType := raw.storage_account_type }
        WriteAcceleratorEnabled := some raw.write_accelerator_enabled
        CreateOption := DiskCreateOptionTypesFromImage
        OsType := osType }
    let disk : VirtualMachineScaleSetOSDisk :=
      if raw.disk_size_gb > 0 then
        { disk with DiskSizeGB := some (toInt32 raw.disk_size_gb) }
      else disk
    let disk : VirtualMachineScaleSetOSDisk :=
      match raw.diff_disk_settings with
      | diffDiskRaw :: _ =>
        { disk with DiffDiskSettings := some { Option := diffDiskRaw.option } }
      | [] => disk
    some disk

/-- `FlattenVirtualMachineScaleSetOSDisk`; the output map is kept as an explicit
association list because its key set (note `"diff_data_settings"`, as written in
the source) is itself under scrutiny. -/
def FlattenVirtualMachineScaleSetOSDisk (input : Option VirtualMachineScaleSetOSDisk) :
    List (List (String × FVal)) :=
  match input with
  | none => []
  | some input =>
    let diffDataSettings : List (List (String × FVal)) :=
      match input.DiffDiskSettings with
      | some dds => [[("option", FVal.s dds.Option)]]
      | none => []
    let diskSizeGb : Int :=
      match input.DiskSizeGB with
      | some v => if v ≠ 0 then v else 0
      | none => 0
    let storageAccountType : String :=
      match input.ManagedDisk with
      | some md => md.StorageAccountType
      | none => ""
    let writeAcceleratorEnabled : Bool :=
      match input.WriteAcceleratorEnabled with
      | some v => v
      | none => false
    [[("caching", FVal.s input.Caching),
      ("disk_size_gb", FVal.i diskSizeGb),
      ("diff_data_settings", FVal.l diffDataSettings),
      ("storage_account_type", FVal.s storageAccountType),
      ("write_accelerator_enabled", FVal.b writeAcceleratorEnabled)]]

/-! ### Source image reference -/

/-- `ExpandVirtualMachineScaleSetSourceImageReference`. -/
def ExpandVirtualMachineScaleSetSourceImageReference
    (input : List SourceImageReferenceNode) : Option ImageReference :=
  match input with
  | [] => none
  | raw :: _ =>
    some { Publisher := some raw.publisher
           Offer := some raw.offer
           Sku := some raw.sku
           Version := some raw.version }

/-- `FlattenVirtualMachineScaleSetSourceImageReference`; the source returns an
empty block when the input pointer is nil or its `ID` field is set. -/
def FlattenVirtualMachineScaleSetSourceImageReference
    (input : Option ImageReference) : List SourceImageReferenceNode :=
  match input with
  | none => []
  | some input =>
    if input.ID ≠ none then []
    else
      let publisher : String := match input.Publisher with | some v => v | none => ""
      let offer : String := match input.Offer with | some v => v | none => ""
      let sku : String := match input.Sku with | some v => v | none => ""
      let version : String := match input.Version with | some v => v | none => ""
      [{ publisher := publisher, offer := offer, sku := sku, version := version }]

/-! ### Upgrade policy -/

/-- `ExpandVirtualMachineScaleSetUpgradePolicy`; `input[0]` panics on an empty
slice (`none`); the Go early returns become `Except.bind` chains. -/
def ExpandVirtualMachineScaleSetUpgradePolicy (input : List UpgradePolicyNode) :
    Option (Except String UpgradePolicy) :=
  match input with
  | [] => none
  | raw :: _ =>
    let policy : UpgradePolicy := { Mode := raw.mode }
    let afterAutomatic : Except String UpgradePolicy :=
      match raw.automatic_os_upgrade_policy with
      | automaticRaw :: _ =>
        if policy.Mode ≠ Automatic then
          Except.error "A `automatic_os_upgrade_policy` block cannot be specified when `mode` is not set to `Automatic`"
        else
          Except.ok { policy with
            AutomaticOSUpgradePolicy := some
              { DisableAutomaticRollback := some automaticRaw.disable_automatic_rollback
                EnableAutomaticOSUpgrade := some automaticRaw.enable_automatic_os_upgrade } }
      | [] => Except.ok policy
    let afterRolling : Except String UpgradePolicy :=
      afterAutomatic.bind fun policy =>
        match raw.rolling_upgrade_policy with
        | rollingRaw :: _ =>
          if policy.Mode ≠ Rolling then
            Except.error "A `rolling_upgrade_policy` block cannot be specified when `mode` is not set to `Rolling`"
          else
            Except.ok { policy with
              RollingUpgradePolicy := some
                { MaxBatchInstancePercent := some (toInt32 rollingRaw.max_batch_instance_percent)
                  MaxUnhealthyInstancePercent := some (toInt32 rollingRaw.max_unhealthy_instance_percent)
                  MaxUnhealthyUpgradedInstancePercent := some (toInt32 rollingRaw.max_unhealthy_upgraded_instance_percent)
                  PauseTimeBetweenBatches := some rollingRaw.pause_time_between_batches } }
        | [] => Except.ok policy
    some <| afterRolling.bind fun policy =>
      if policy.Mode = Automatic ∧ policy.AutomaticOSUpgradePolicy = none then
        Except.error "A `automatic_os_upgrade_policy` block must be specified when `mode` is set to `Automatic`"
      else if policy.Mode = Rolling ∧ policy.RollingUpgradePolicy = none then
        Except.error "A `rolling_upgrade_policy` block must be specified when `mode` is set to `Rolling`"
      else
        Except.ok policy

/-- `FlattenVirtualMachineScaleSetUpgradePolicy`; the keys of the output map coincide
with the schema keys, so the output reuses the configuration-node structures. -/
def FlattenVirtualMachineScaleSetUpgradePolicy (input : Option UpgradePolicy) :
    List UpgradePolicyNode :=
  match input with
  | none => []
  | some input =>
    let automaticOutput : List AutomaticOSUpgradePolicyNode :=
      match input.AutomaticOSUpgradePolicy with
      | some policy =>
        let disableAutomaticRollback : Bool :=
          match policy.DisableAutomaticRollback with
          | some v => v
          | none => false
        let enableAutomaticOSUpgrade : Bool :=
          match policy.EnableAutomaticOSUpgrade with
          | some v => v
          | none => false
        [{ disable_automatic_rollback := disableAutomaticRollback
           enable_automatic_os_upgrade := enableAutomaticOSUpgrade }]
      | none => []
    let rollingOutput : List RollingUpgradePolicyNode :=
      match input.RollingUpgradePolicy with
      | some policy =>
        let maxBatchInstancePercent : Int :=
          match policy.MaxBatchInstancePercent with
          | some v => v
          | none => 0
        let maxUnhealthyInstancePercent : Int :=
          match policy.MaxUnhealthyInstancePercent with
          | some v => v
          | none => 0
        let maxUnhealthyUpgradedInstancePercent : Int :=
          match policy.MaxUnhealthyUpgradedInstancePercent with
          | some v => v
          | none => 0
        let pauseTimeBetweenBatches : String :=
          match policy.PauseTimeBetweenBatches with
          | some v => v
          | none => ""
        [{ max_batch_instance_percent := maxBatchInstancePercent
           max_unhealthy_instance_percent := maxUnhealthyInstancePercent
           max_unhealthy_upgraded_instance_percent := maxUnhealthyUpgradedInstancePercent
           pause_time_between_batches := pauseTimeBetweenBatches }]
      | none => []
    [{ mode := input.Mode
       automatic_os_upgrade_policy := automaticOutput
       rolling_upgrade_policy := rollingOutput }]

/-! ### Concrete inputs used by the evidence theorems -/

/-- An `os_disk` node exercising the nested `diff_disk_settings` block. -/
def c2node : OSDiskNode :=
  { caching := "None"
    storage_account_type := "Standard_LRS"
    diff_disk_settings := [{ option := "Local" }]
    disk_size_gb := 0
    write_accelerator_enabled := false }

/-- The single map produced by flattening the expansion of `c2node`. -/
def c2out : List (String × FVal) :=
  [("caching", FVal.s "None"),
   ("disk_size_gb", FVal.i 0),
   ("diff_data_settings", FVal.l [[("option", FVal.s "Local")]]),
   ("storage_account_type", FVal.s "Standard_LRS"),
   ("write_accelerator_enabled", FVal.b false)]

/-- An `os_disk` node at the maximum accepted `disk_size_gb`. -/
def c3node : OSDiskNode :=
  { caching := "ReadWrite"
    storage_account_type := "Premium_LRS"
    diff_disk_settings := []
    disk_size_gb := 1023
    write_accelerator_enabled := true }

/-- An image reference whose `ID` field is populated alongside the four
publisher/offer/sku/version fields. -/
def c4withID : ImageReference :=
  { ID := some "image-id"
    Publisher := some "pub"
    Offer := some "off"
    Sku := some "sku"
    Version := some "ver" }

/-- An image reference without an `ID`, with some of the four fields unset. -/
def c4noID : ImageReference :=
  { ID := none
    Publisher := some "pub"
    Offer := none
    Sku := some "sku"
    Version := none }

/-- Modelled from the spec: pairing of the successive segments of a
hierarchical resource path into label/value entries, the decomposition the
external shared path-parsing helper exposes through `Path` (the helper itself
lives outside the excerpted source). -/
def pathPairs : List String → List (String × String)
  | label :: value :: rest => (label, value) :: pathPairs rest
  | _ => []

/-- Splitting of a character sequence at `/` into segments. -/
def splitSlashAux : List Char → List Char → List String
  | [], cur => [String.mk cur.reverse]
  | c :: rest, cur =>
    if c = '/' then String.mk cur.reverse :: splitSlashAux rest []
    else splitSlashAux rest (c :: cur)

/-- Modelled from the spec: a minimal concrete instance of the external shared
path-parsing helper `azure.ParseAzureResourceID`, adequate for well-formed
inputs: splits the path on `/` and records the label/value pairs. -/
def parseAzureResourceIDModel (input : String) : Except String AzureResourceID :=
  Except.ok { Path := pathPairs ((splitSlashAux input.data []).filter (fun s => s ≠ "")) }

def c5input : String :=
  "/subscriptions/sub1/resourceGroups/group1/providers/Microsoft.Compute/virtualMachineScaleSets/myScaleSet"

def c5id : AzureResourceID :=
  { Path := [("subscriptions", "sub1"), ("resourceGroups", "group1"),
             ("providers", "Microsoft.Compute"), ("virtualMachineScaleSets", "myScaleSet")] }

/-- An `upgrade_policy` node in `Manual` mode with neither optional block. -/
def manualNode : UpgradePolicyNode :=
  { mode := "Manual", automatic_os_upgrade_policy := [], rolling_upgrade_policy := [] }

/-- The policy object the source builds for `manualNode`. -/
def manualPolicy : UpgradePolicy := { Mode := "Manual" }

/-! ### Theorems -/

/-- Full behaviour of `ExpandVirtualMachineScaleSetUpgradePolicy` on a
one-element input, expressed directly over the fields of the input node: the
four guards in source order, then the fully-expanded policy. Shared support
lemma for the claims about this function. -/
theorem expandUpgradePolicy_characterization (raw : UpgradePolicyNode) :
    ExpandVirtualMachineScaleSetUpgradePolicy [raw] = some (
      if raw.automatic_os_upgrade_policy ≠ [] ∧ raw.mode ≠ Automatic then
        Except.error "A `automatic_os_upgrade_policy` block cannot be specified when `mode` is not set to `Automatic`"
      else if raw.rolling_upgrade_policy ≠ [] ∧ raw.mode ≠ Rolling then
        Except.error "A `rolling_upgrade_policy` block cannot be specified when `mode` is not set to `Rolling`"
      else if raw.mode = Automatic ∧ raw.automatic_os_upgrade_policy = [] then
        Except.error "A `automatic_os_upgrade_policy` block must be specified when `mode` is set to `Automatic`"
      else if raw.mode = Rolling ∧ raw.rolling_upgrade_policy = [] then
        Except.error "A `rolling_upgrade_policy` block must be specified when `mode` is set to `Rolling`"
      else
        Except.ok {
          Mode := raw.mode
          AutomaticOSUpgradePolicy :=
            match raw.automatic_os_upgrade_policy with
            | a :: _ => some { DisableAutomaticRollback := some a.disable_automatic_rollback
                               EnableAutomaticOSUpgrade := some a.enable_automatic_os_upgrade }
            | [] => none
          RollingUpgradePolicy :=
            match raw.rolling_upgrade_policy with
            | r :: _ => some
                { MaxBatchInstancePercent := some (toInt32 r.max_batch_instance_percent)
                  MaxUnhealthyInstancePercent := some (toInt32 r.max_unhealthy_instance_percent)
                  MaxUnhealthyUpgradedInstancePercent := some (toInt32 r.max_unhealthy_upgraded_instance_percent)
                  PauseTimeBetweenBatches := some r.pause_time_between_batches }
            | [] => none }) := by
  obtain ⟨m, autos, rollings⟩ := raw
  by_cases hA : m = Automatic <;> by_cases hR : m = Rolling <;>
    cases autos <;> cases rollings <;>
      simp_all [ExpandVirtualMachineScaleSetUpgradePolicy, Except.bind, Automatic, Rolling]

/-- Claim C1: `ExpandVirtualMachineScaleSetUpgradePolicy` enforces exactly the
four cross-field rules, as independent guards evaluated in the stated order,
each with a distinct message: for every one-element input node, an
`automatic_os_upgrade_policy` block with `mode ≠ Automatic` fails with the
first message; otherwise a `rolling_upgrade_policy` block with
`mode ≠ Rolling` fails with the second; otherwise `mode = Automatic` with no
automatic block fails with the third; otherwise `mode = Rolling` with no
rolling block fails with the fourth; every other combination succeeds. The
function returns a single result, so at most one rule produces the error of
any given call, and the four messages are pairwise distinct. -/
theorem expandUpgradePolicy_four_guards (raw : UpgradePolicyNode) :
    (ExpandVirtualMachineScaleSetUpgradePolicy [raw] = some (
      if raw.automatic_os_upgrade_policy ≠ [] ∧ raw.mode ≠ Automatic then
        Except.error "A `automatic_os_upgrade_policy` block cannot be specified when `mode` is not set to `Automatic`"
      else if raw.rolling_upgrade_policy ≠ [] ∧ raw.mode ≠ Rolling then
        Except.error "A `rolling_upgrade_policy` block cannot be specified when `mode` is not set to `Rolling`"
      else if raw.mode = Automatic ∧ raw.automatic_os_upgrade_policy = [] then
        Except.error "A `automatic_os_upgrade_policy` block must be specified when `mode` is set to `Automatic`"
      else if raw.mode = Rolling ∧ raw.rolling_upgrade_policy = [] then
        Except.error "A `rolling_upgrade_policy` block must be specified when `mode` is set to `Rolling`"
      else
        Except.ok {
          Mode := raw.mode
          AutomaticOSUpgradePolicy :=
            match raw.automatic_os_upgrade_policy with
            | a :: _ => some { DisableAutomaticRollback := some a.disable_automatic_rollback
                               EnableAutomaticOSUpgrade := some a.enable_automatic_os_upgrade }
            | [] => none
          RollingUpgradePolicy :=
            match raw.rolling_upgrade_policy with
            | r :: _ => some
                { MaxBatchInstancePercent := some (toInt32 r.max_batch_instance_percent)
                  MaxUnhealthyInstancePercent := some (toInt32 r.max_unhealthy_instance_percent)
                  MaxUnhealthyUpgradedInstancePercent := some (toInt32 r.max_unhealthy_upgraded_instance_percent)
                  PauseTimeBetweenBatches := some r.pause_time_between_batches }
            | [] => none }))
  ∧ List.Pairwise (fun a b => a ≠ b)
      ["A `automatic_os_upgrade_policy` block cannot be specified when `mode` is not set to `Automatic`",
       "A `rolling_upgrade_policy` block cannot be specified when `mode` is not set to `Rolling`",
       "A `automatic_os_upgrade_policy` block must be specified when `mode` is set to `Automatic`",
       "A `rolling_upgrade_policy` block must be specified when `mode` is set to `Rolling`"] :=
  ⟨expandUpgradePolicy_characterization raw, by decide⟩

/-- Claim C8: whenever `ExpandVirtualMachineScaleSetUpgradePolicy` returns
successfully, the automatic sub-policy is present iff the mode is `Automatic`
and the rolling sub-policy is present iff the mode is `Rolling`; whenever it
returns an error, no policy object is returned. -/
theorem expandUpgradePolicy_success_invariant (raw : UpgradePolicyNode) :
    (∀ p : UpgradePolicy,
      ExpandVirtualMachineScaleSetUpgradePolicy [raw] = some (Except.ok p) →
        ((p.AutomaticOSUpgradePolicy ≠ none ↔ p.Mode = Automatic)
          ∧ (p.RollingUpgradePolicy ≠ none ↔ p.Mode = Rolling)))
  ∧ (∀ e : String,
      ExpandVirtualMachineScaleSetUpgradePolicy [raw] = some (Except.error e) →
        ∀ p : UpgradePolicy,
          ExpandVirtualMachineScaleSetUpgradePolicy [raw] ≠ some (Except.ok p)) := by
  have h := expandUpgradePolicy_characterization raw
  constructor
  · intro p hp
    rw [h] at hp
    obtain ⟨m, autos, rollings⟩ := raw
    obtain ⟨pm, pa, pr⟩ := p
    by_cases hA : m = Automatic <;> by_cases hR : m = Rolling <;>
      cases autos <;> cases rollings <;>
        simp_all [Automatic, Rolling] <;>
          (obtain ⟨rfl, rfl, rfl⟩ := hp) <;> simp_all
  · intro e he p hp
    rw [he] at hp
    exact absurd (Option.some.inj hp) (by simp)

/-- Closed witness for the claim-C8 theorem at the `Manual`-mode node with
neither optional block. -/
theorem expandUpgradePolicy_success_invariant_witness :
    (manualPolicy.AutomaticOSUpgradePolicy ≠ none ↔ manualPolicy.Mode = Automatic)
  ∧ (manualPolicy.RollingUpgradePolicy ≠ none ↔ manualPolicy.Mode = Rolling) :=
  (expandUpgradePolicy_success_invariant manualNode).1 manualPolicy (by rfl)

/-- Claim C2 (refuting evidence, supporting the schema as intent): flattening
the expansion of a valid OS-disk node with a `diff_disk_settings` block does
not reproduce that field under the schema-declared key `"diff_disk_settings"`;
the flatten function writes the nested list under `"diff_data_settings"`, a
key the schema does not declare. -/
theorem osdisk_roundtrip_misspelled_key :
    FlattenVirtualMachineScaleSetOSDisk (ExpandVirtualMachineScaleSetOSDisk [c2node] LinuxOS)
      = [c2out]
  ∧ c2out.lookup "diff_disk_settings" = none
  ∧ c2out.lookup "diff_data_settings" = some (FVal.l [[("option", FVal.s "Local")]])
  ∧ c2node.diff_disk_settings ≠ []
  ∧ "diff_disk_settings" ∈ VirtualMachineScaleSetOSDiskSchemaKeys
  ∧ "diff_data_settings" ∉ VirtualMachineScaleSetOSDiskSchemaKeys :=
  ⟨rfl, rfl, rfl, by decide, by decide, by decide⟩

/-- Claim C3: for every one-element OS-disk input node whose `disk_size_gb`
passed the schema validator (`IntBetween 0 1023`), the expansion omits the
disk-size field exactly when `disk_size_gb = 0` and carries the exact value
when `disk_size_gb > 0`; a size of `0` never appears in the request object;
and the schema validator accepts exactly `0`–`1023`, rejecting `1024`. -/
theorem expandOSDisk_diskSizeGb_spec (raw : OSDiskNode) (osType : String)
    (hlo : 0 ≤ raw.disk_size_gb) (hhi : raw.disk_size_gb ≤ 1023) :
    (ExpandVirtualMachineScaleSetOSDisk [raw] osType).map VirtualMachineScaleSetOSDisk.DiskSizeGB
      = some (if raw.disk_size_gb > 0 then some raw.disk_size_gb else none)
  ∧ (∀ disk : VirtualMachineScaleSetOSDisk,
      ExpandVirtualMachineScaleSetOSDisk [raw] osType = some disk → disk.DiskSizeGB ≠ some 0)
  ∧ IntBetween 0 1023 raw.disk_size_gb = true
  ∧ (∀ n : Int, IntBetween 0 1023 n = true ↔ (0 ≤ n ∧ n ≤ 1023))
  ∧ IntBetween 0 1023 1023 = true ∧ IntBetween 0 1023 1024 = false := by
  have ht : toInt32 raw.disk_size_gb = raw.disk_size_gb := by unfold toInt32; omega
  obtain ⟨c, sat, dds, dsg, wae⟩ := raw
  simp only at ht hlo hhi
  refine ⟨?_, ?_, ?_, ?_, by decide, by decide⟩
  · cases dds <;>
      simp only [ExpandVirtualMachineScaleSetOSDisk, ht] <;>
        split_ifs <;> rfl
  · intro disk hdisk
    cases dds <;> by_cases hpos : dsg > 0 <;>
      simp_all [ExpandVirtualMachineScaleSetOSDisk] <;>
        (obtain rfl := hdisk.symm) <;> simp_all <;> omega
  · simp only [IntBetween]
    exact decide_eq_true_eq.mpr ⟨hlo, hhi⟩
  · intro n
    simp [IntBetween]

/-- Closed witness for the claim-C3 theorem at the maximum accepted
`disk_size_gb` of `1023`. -/
theorem expandOSDisk_diskSizeGb_spec_witness :
    (0 ≤ c3node.disk_size_gb ∧ c3node.disk_size_gb ≤ 1023)
  ∧ (ExpandVirtualMachineScaleSetOSDisk [c3node] LinuxOS).map VirtualMachineScaleSetOSDisk.DiskSizeGB
      = some (if c3node.disk_size_gb > 0 then some c3node.disk_size_gb else none) :=
  ⟨⟨by decide, by decide⟩,
   (expandOSDisk_diskSizeGb_spec c3node LinuxOS (by decide) (by decide)).1⟩

/-- Claim C4: flattening a source-image reference yields the empty list when
the object is absent or its `ID` field is populated (even when the four
publisher/offer/sku/version fields are also set); otherwise it yields a single
node carrying the four string fields, each defaulting to `""` when unset. -/
theorem flattenSourceImageReference_spec :
    FlattenVirtualMachineScaleSetSourceImageReference none = []
  ∧ (∀ r : ImageReference, r.ID ≠ none →
      FlattenVirtualMachineScaleSetSourceImageReference (some r) = [])
  ∧ (∀ r : ImageReference, r.ID = none →
      FlattenVirtualMachineScaleSetSourceImageReference (some r)
        = [{ publisher := r.Publisher.getD "", offer := r.Offer.getD "",
             sku := r.Sku.getD "", version := r.Version.getD "" }]) := by
  refine ⟨rfl, ?_, ?_⟩
  · intro r hr
    simp [FlattenVirtualMachineScaleSetSourceImageReference, hr]
  · intro r hr
    obtain ⟨rid, rp, ro, rs, rv⟩ := r
    simp only at hr
    subst hr
    cases rp <;> cases ro <;> cases rs <;> cases rv <;>
      simp [FlattenVirtualMachineScaleSetSourceImageReference]

/-- Closed witness for the claim-C4 theorem: a populated-`ID` reference with
all four fields set flattens to the empty list, and an `ID`-free reference
with some fields unset flattens to the single defaulted node. -/
theorem flattenSourceImageReference_spec_witness :
    FlattenVirtualMachineScaleSetSourceImageReference (some c4withID) = []
  ∧ FlattenVirtualMachineScaleSetSourceImageReference (some c4noID)
      = [{ publisher := c4noID.Publisher.getD "", offer := c4noID.Offer.getD "",
           sku := c4noID.Sku.getD "", version := c4noID.Version.getD "" }] :=
  ⟨flattenSourceImageReference_spec.2.1 c4withID (by decide),
   flattenSourceImageReference_spec.2.2 c4noID (by decide)⟩

/-- Claim C5: `ParseVirtualMachineScaleSetResourceID` succeeds exactly when the
shared path-parsing helper succeeds and the segment keyed by the literal label
`"virtualMachineScaleSets"` is present and non-empty; on success the field
`Name` of the result is that segment value (and `Base` the helper output); when
the segment is missing or empty the parser fails with the error naming the
`virtualMachineScaleSets` label. -/
theorem parseVMSSResourceID_spec
    (parseAzureResourceID : String → Except String AzureResourceID) (input : String) :
    ((∃ result, ParseVirtualMachineScaleSetResourceID parseAzureResourceID input
        = Except.ok result)
      ↔ (∃ id, parseAzureResourceID input = Except.ok id
          ∧ id.pathGet "virtualMachineScaleSets" ≠ ""))
  ∧ (∀ result id,
      ParseVirtualMachineScaleSetResourceID parseAzureResourceID input = Except.ok result →
      parseAzureResourceID input = Except.ok id →
        result.Name = id.pathGet "virtualMachineScaleSets" ∧ result.Base = id)
  ∧ (∀ id, parseAzureResourceID input = Except.ok id →
      id.pathGet "virtualMachineScaleSets" = "" →
        ParseVirtualMachineScaleSetResourceID parseAzureResourceID input
          = Except.error "ID was missing the `virtualMachineScaleSets` element") := by
  cases h : parseAzureResourceID input with
  | error e =>
    refine ⟨?_, ?_, ?_⟩
    · simp [ParseVirtualMachineScaleSetResourceID, h]
    · intro result id hres
      simp [ParseVirtualMachineScaleSetResourceID, h] at hres
    · intro id hid
      simp [h] at hid
  | ok id =>
    by_cases hn : id.pathGet "virtualMachineScaleSets" = "" <;>
      refine ⟨?_, ?_, ?_⟩
    · simp [ParseVirtualMachineScaleSetResourceID, h, hn]
    · intro result id' hres
      simp [ParseVirtualMachineScaleSetResourceID, h, hn] at hres
    · intro id' hid' hn'
      obtain rfl := Except.ok.inj hid'
      simp [ParseVirtualMachineScaleSetResourceID, h, hn]
    · simp [ParseVirtualMachineScaleSetResourceID, h, hn]
    · intro result id' hres hid'
      obtain rfl := Except.ok.inj hid'
      simp [ParseVirtualMachineScaleSetResourceID, h, hn] at hres
      subst hres
      exact ⟨rfl, rfl⟩
    · intro id' hid' hn'
      obtain rfl := Except.ok.inj hid'
      exact absurd hn' hn

/-- Closed witness for the claim-C5 theorem at a well-formed scale-set id
ending in `.../virtualMachineScaleSets/myScaleSet`, against the spec-modelled
instance of the shared path-parsing helper. -/
theorem parseVMSSResourceID_spec_witness :
    ({ Base := c5id, Name := "myScaleSet" } : VirtualMachineScaleSetResourceID).Name
        = c5id.pathGet "virtualMachineScaleSets"
  ∧ ({ Base := c5id, Name := "myScaleSet" } : VirtualMachineScaleSetResourceID).Base = c5id :=
  (parseVMSSResourceID_spec parseAzureResourceIDModel c5input).2.1
    { Base := c5id, Name := "myScaleSet" } c5id (by rfl) (by rfl)

/-- Claim C6: flattening an absent upgrade policy yields the empty list;
otherwise the result is a single node in which each absent sub-policy flattens
to an empty sub-list (never a synthesized default-valued entry) while a
present sub-policy flattens to exactly one entry with its scalar fields
defaulted when unset. -/
theorem flattenUpgradePolicy_spec :
    FlattenVirtualMachineScaleSetUpgradePolicy none = []
  ∧ (∀ p : UpgradePolicy,
      FlattenVirtualMachineScaleSetUpgradePolicy (some p)
        = [{ mode := p.Mode
             automatic_os_upgrade_policy :=
               match p.AutomaticOSUpgradePolicy with
               | some a =>
                 [{ disable_automatic_rollback := a.DisableAutomaticRollback.getD false
                    enable_automatic_os_upgrade := a.EnableAutomaticOSUpgrade.getD false }]
               | none => []
             rolling_upgrade_policy :=
               match p.RollingUpgradePolicy with
               | some r =>
                 [{ max_batch_instance_percent := r.MaxBatchInstancePercent.getD 0
                    max_unhealthy_instance_percent := r.MaxUnhealthyInstancePercent.getD 0
                    max_unhealthy_upgraded_instance_percent :=
                      r.MaxUnhealthyUpgradedInstancePercent.getD 0
                    pause_time_between_batches := r.PauseTimeBetweenBatches.getD "" }]
               | none => [] }]) := by
  refine ⟨rfl, ?_⟩
  intro p
  obtain ⟨m, a, r⟩ := p
  cases a with
  | none =>
    cases r with
    | none => rfl
    | some rp =>
      obtain ⟨w, x, y, z⟩ := rp
      cases w <;> cases x <;> cases y <;> cases z <;> rfl
  | some ap =>
    obtain ⟨d, e⟩ := ap
    cases r with
    | none => cases d <;> cases e <;> rfl
    | some rp =>
      obtain ⟨w, x, y, z⟩ := rp
      cases d <;> cases e <;> cases w <;> cases x <;> cases y <;> cases z <;> rfl

/-- Claim C7: in every flatten function of the source, an optional scalar
field that is absent on the provider-object side collapses to a concrete
default in the output node: absent booleans flatten to `false`, absent
integers to `0`, and absent strings to `""`. -/
theorem flatten_absent_scalars_default :
    (FlattenVirtualMachineScaleSetAdditionalCapabilities (some { UltraSSDEnabled := none })
       = [{ ultra_ssd_enabled := false }])
  ∧ (∀ caching createOption osType : String,
       FlattenVirtualMachineScaleSetOSDisk (some
         { Caching := caching, ManagedDisk := none, WriteAcceleratorEnabled := none,
           CreateOption := createOption, OsType := osType, DiskSizeGB := none,
           DiffDiskSettings := none })
         = [[("caching", FVal.s caching), ("disk_size_gb", FVal.i 0),
             ("diff_data_settings", FVal.l []), ("storage_account_type", FVal.s ""),
             ("write_accelerator_enabled", FVal.b false)]])
  ∧ (∀ mode : String,
       FlattenVirtualMachineScaleSetUpgradePolicy (some
         { Mode := mode
           AutomaticOSUpgradePolicy := some
             { DisableAutomaticRollback := none, EnableAutomaticOSUpgrade := none }
           RollingUpgradePolicy := some
             { MaxBatchInstancePercent := none, MaxUnhealthyInstancePercent := none,
               MaxUnhealthyUpgradedInstancePercent := none, PauseTimeBetweenBatches := none } })
         = [{ mode := mode
              automatic_os_upgrade_policy :=
                [{ disable_automatic_rollback := false, enable_automatic_os_upgrade := false }]
              rolling_upgrade_policy :=
                [{ max_batch_instance_percent := 0, max_unhealthy_instance_percent := 0,
                   max_unhealthy_upgraded_instance_percent := 0,
                   pause_time_between_batches := "" }] }]) :=
  ⟨rfl, fun _ _ _ => rfl, fun _ => rfl⟩

/-- Claim C9: `ExpandVirtualMachineScaleSetOSDisk` and
`ExpandVirtualMachineScaleSetUpgradePolicy` read the first element of their
input unconditionally; on any non-empty input the access is in bounds and the
functions produce a value, while on the empty input they produce neither a
value nor a validation error (the out-of-bounds panic, `none` in the
embedding). -/
theorem expand_head_access_spec :
    (∀ (raw : OSDiskNode) (rest : List OSDiskNode) (osType : String),
       (ExpandVirtualMachineScaleSetOSDisk (raw :: rest) osType).isSome = true)
  ∧ (∀ osType : String, ExpandVirtualMachineScaleSetOSDisk [] osType = none)
  ∧ (∀ (raw : UpgradePolicyNode) (rest : List UpgradePolicyNode),
       (ExpandVirtualMachineScaleSetUpgradePolicy (raw :: rest)).isSome = true)
  ∧ ExpandVirtualMachineScaleSetUpgradePolicy [] = none :=
  ⟨fun _ _ _ => rfl, fun _ => rfl, fun _ _ => rfl, rfl⟩

/-- Claim C10: `ExpandVirtualMachineScaleSetAdditionalCapabilities` always
returns a present capabilities object, even on the empty input; consequently
flattening the expansion of the empty configuration yields the one-element
list with `ultra_ssd_enabled = false`, not the empty list, so the empty
configuration does not round-trip to itself. -/
theorem additionalCapabilities_empty_not_roundtrip :
    (∀ input : List AdditionalCapabilitiesNode,
       (ExpandVirtualMachineScaleSetAdditionalCapabilities input).isSome = true)
  ∧ FlattenVirtualMachineScaleSetAdditionalCapabilities
      (ExpandVirtualMachineScaleSetAdditionalCapabilities [])
        = [{ ultra_ssd_enabled := false }]
  ∧ ([{ ultra_ssd_enabled := false }] : List AdditionalCapabilitiesNode) ≠ [] :=
  ⟨fun input => by cases input <;> rfl, rfl, by decide⟩

end VMSS
